import Mathlib

/-
Verification of the interop capability bridge specification against the
native fixture src/projects/com.oracle.truffle.llvm.test/interoptests/interop015.c.

The C fixture is the only code present in the repository:

  int main() {
    void *obj = truffle_import("foreign");
    if (truffle_is_executable(obj)) { return 42; } else { return 13; }
  }

The bridge itself (truffle_import, truffle_is_executable, the symbol
registry, the capability probe and the invoker) is declared in truffle.h
and implemented outside the repository, so it is modelled here from the
specification (sections 3, 4, 6 and 7); main is embedded from the C source.
-/

/-- Modelled from the spec: the primitive payload of a ForeignValue
(numeric, boolean or string), spec section 3. -/
inductive Prim : Type
  | num (n : Int)
  | boolean (b : Bool)
  | str (s : String)
deriving DecidableEq

/-- Modelled from the spec: the closed tagged union ForeignValue, spec
section 3 — variants Null, Primitive, Executable (callable-ref and arity
hint), Array and Object (accessor metadata reduced to the mutability bit
the capability rules read), Pointer (raw handle). The bridge is not in
src/, only its caller. -/
inductive ForeignValue : Type
  | null
  | primitive (p : Prim)
  | executable (callableRef : Nat) (arityHint : Nat)
  | array (mutableAccessor : Bool)
  | object (mutableAccessor : Bool)
  | pointer (raw : Nat)
deriving DecidableEq

/-- Modelled from the spec: the enumerated Capability tag, spec section 3:
one of Executable, Readable, Writable, Null, Array, Pointer. -/
inductive Capability : Type
  | executable
  | readable
  | writable
  | null
  | array
  | pointer
deriving DecidableEq

/-- Modelled from the spec: the error taxonomy of section 7. -/
inductive BridgeError : Type
  | nameNotFound
  | notExecutable
  | arityMismatch (expected got : Nat)
  | foreignRaised
deriving DecidableEq

/-- Modelled from the spec: the SymbolRegistry, a table of
(name, ForeignValue) entries, spec sections 2 and 3. -/
abbrev SymbolRegistry : Type := List (String × ForeignValue)

/-- Modelled from the spec: SymbolRegistry.register inserts or overwrites;
last-registration-wins, realised by prepending so that resolve finds the
newest entry first (spec sections 3 and 4.1). -/
def SymbolRegistry.register (r : SymbolRegistry) (name : String)
    (v : ForeignValue) : SymbolRegistry :=
  (name, v) :: r

/-- Modelled from the spec: SymbolRegistry.resolve returns the bound value
or none when no entry exists (NameNotFound at the bridge facade), spec
section 4.1. -/
def SymbolRegistry.resolve : SymbolRegistry → String → Option ForeignValue
  | [], _ => none
  | (k, v) :: rest, name =>
      if k = name then some v else SymbolRegistry.resolve rest name

/-- Modelled from the spec: whether a name has a registration in the
registry. -/
def SymbolRegistry.registered (r : SymbolRegistry) (name : String) : Bool :=
  (r.resolve name).isSome

/-- Modelled from the spec: CapabilityProbe.has, the total capability
predicate of section 4.2 — Executable iff variant Executable, Readable iff
Array, Object or Primitive, Writable iff Array or Object with a mutable
accessor, Null iff Null, Array iff Array, Pointer iff Pointer; everything
else false. -/
def CapabilityProbe.has : ForeignValue → Capability → Bool
  | .executable _ _, .executable => true
  | .array _, .readable => true
  | .object _, .readable => true
  | .primitive _, .readable => true
  | .array m, .writable => m
  | .object m, .writable => m
  | .null, .null => true
  | .array _, .array => true
  | .pointer _, .pointer => true
  | _, _ => false

/-- Modelled from the spec: a capability is applicable to a value when the
value's variant is one the capability's rule in section 4.2 can ever
answer true for; any other pairing is an inapplicable capability. -/
def capApplicable : ForeignValue → Capability → Bool
  | .executable _ _, .executable => true
  | .array _, .readable => true
  | .object _, .readable => true
  | .primitive _, .readable => true
  | .array _, .writable => true
  | .object _, .writable => true
  | .null, .null => true
  | .array _, .array => true
  | .pointer _, .pointer => true
  | _, _ => false

/-- Modelled from the spec: the bridge facade operation import, a thin
wrapper over SymbolRegistry.resolve that fails with NameNotFound when the
name is unresolved (spec sections 4.4 and 6). Named after the boundary
symbol the fixture calls. -/
def truffle_import (r : SymbolRegistry) (name : String) :
    Except BridgeError ForeignValue :=
  match r.resolve name with
  | some v => Except.ok v
  | none => Except.error BridgeError.nameNotFound

/-- Modelled from the spec: the bridge probe operation, spec section 4.4:
probe is CapabilityProbe.has. -/
def truffle_probe (v : ForeignValue) (c : Capability) : Bool :=
  CapabilityProbe.has v c

/-- Modelled from the spec: the boundary predicate is_executable the
fixture calls — probe with capability Executable (spec section 6). -/
def truffle_is_executable (v : ForeignValue) : Bool :=
  truffle_probe v Capability.executable

/-- Whether a ForeignValue is the callable (Executable) variant. -/
def ForeignValue.isCallable : ForeignValue → Bool
  | .executable _ _ => true
  | _ => false

/-- An observable event on the foreign side of the boundary: the only one
is an actual invocation of a foreign callable (spec sections 4.2, 4.3:
probing touches nothing foreign beyond the tag; only invocation transfers
control to the foreign side). -/
inductive ForeignEvent : Type
  | invoked (callableRef : Nat) (argCount : Nat)
deriving DecidableEq

/-- Modelled from the spec: the probe operation instrumented with the
foreign-side event trace it emits — the probe only reads the tag, so it
emits no foreign events (spec section 4.2). -/
def truffle_probeT (v : ForeignValue) (c : Capability) :
    Bool × List ForeignEvent :=
  (CapabilityProbe.has v c, [])

/-- The foreign-side trace of a sequence of probe calls. -/
def probesTrace (ps : List (ForeignValue × Capability)) : List ForeignEvent :=
  (ps.map fun p => (truffle_probeT p.1 p.2).2).flatten

/-- Modelled from the spec: Invoker.invoke, spec section 4.3, instrumented
with the foreign-side event trace. It defensively re-checks the tag and
fails with NotExecutable, checks the arity hint before any foreign call,
and only then transfers control via the runtime entry point, wrapping a
foreign failure as ForeignRaised. -/
def Invoker.invoke (call : Nat → List ForeignValue → Except Unit ForeignValue)
    (v : ForeignValue) (args : List ForeignValue) :
    Except BridgeError ForeignValue × List ForeignEvent :=
  match v with
  | .executable ref arity =>
      if args.length = arity then
        match call ref args with
        | Except.ok res => (Except.ok res, [ForeignEvent.invoked ref args.length])
        | Except.error _ =>
            (Except.error BridgeError.foreignRaised,
             [ForeignEvent.invoked ref args.length])
      else
        (Except.error (BridgeError.arityMismatch arity args.length), [])
  | _ => (Except.error BridgeError.notExecutable, [])

/-- Two successive probe calls on the same handle and capability, threading
the foreign-side trace between them: the pair of results plus the combined
trace. -/
def probeTwice (v : ForeignValue) (c : Capability) :
    Bool × Bool × List ForeignEvent :=
  let r1 := truffle_probeT v c
  let r2 := truffle_probeT v c
  (r1.1, r2.1, r1.2 ++ r2.2)

/-- main of interop015.c, connected to the spec-modelled bridge over a
given registry: import "foreign", branch on the executability probe,
return 42 or 13. A failed import propagates as the bridge error, since
the bridge produces no handle for the probe in that case. -/
def mainRun (r : SymbolRegistry) : Except BridgeError Int :=
  match truffle_import r "foreign" with
  | Except.error e => Except.error e
  | Except.ok obj =>
      if truffle_is_executable obj then Except.ok 42 else Except.ok 13

/-- mainRun instrumented with the foreign-side event trace. -/
def mainRunT (r : SymbolRegistry) : Except BridgeError Int × List ForeignEvent :=
  match truffle_import r "foreign" with
  | Except.error e => (Except.error e, [])
  | Except.ok obj =>
      let pr := truffle_probeT obj Capability.executable
      if pr.1 then (Except.ok 42, pr.2) else (Except.ok 13, pr.2)

/-- A call main makes across the bridge boundary. -/
inductive CallEvent : Type
  | importCall (name : String)
  | isExecutableCall
  | invokeCall
deriving DecidableEq

/-- main of interop015.c embedded over an arbitrary environment: the
handle type α is opaque (void pointer), truffle_import and
truffle_is_executable are arbitrary oracle functions, and the bridge
calls main makes are logged in order. main imports "foreign", probes the
returned handle once, and returns 42 on true, 13 on false. -/
def mainC {α : Type} (imp : String → α) (isExec : α → Bool) :
    Int × List CallEvent :=
  let obj := imp "foreign"
  let b := isExec obj
  if b then (42, [CallEvent.importCall "foreign", CallEvent.isExecutableCall])
  else (13, [CallEvent.importCall "foreign", CallEvent.isExecutableCall])

/-- Claim C1: if the name "foreign" is registered and bound to an
executable (callable) foreign value, then import("foreign") succeeds,
probing the returned handle for Executable yields true, and main takes the
is_executable branch and returns exit code 42. -/
theorem c1_executable_branch_returns_42
    (r : SymbolRegistry) (ref ar : Nat)
    (h : r.resolve "foreign" = some (ForeignValue.executable ref ar)) :
    truffle_import r "foreign" = Except.ok (ForeignValue.executable ref ar) ∧
    truffle_is_executable (ForeignValue.executable ref ar) = true ∧
    mainRun r = Except.ok 42 := by
  constructor
  · simp [truffle_import, h]
  · constructor
    · rfl
    · simp [mainRun, truffle_import, h, truffle_is_executable, truffle_probe,
        CapabilityProbe.has]

/-- Witness for C1 at a concrete registry binding "foreign" to a callable
with arity hint 0. -/
theorem c1_witness :
    truffle_import [("foreign", ForeignValue.executable 0 0)] "foreign" =
      Except.ok (ForeignValue.executable 0 0) ∧
    truffle_is_executable (ForeignValue.executable 0 0) = true ∧
    mainRun [("foreign", ForeignValue.executable 0 0)] = Except.ok 42 :=
  c1_executable_branch_returns_42 [("foreign", ForeignValue.executable 0 0)] 0 0
    (by decide)

/-- Claim C2: if the name "foreign" is registered but bound to a
non-callable value, probing the handle returned by import("foreign") for
Executable yields false, and main takes the not-executable branch and
returns exit code 13. -/
theorem c2_nonexecutable_branch_returns_13
    (r : SymbolRegistry) (v : ForeignValue)
    (h : r.resolve "foreign" = some v) (hv : v.isCallable = false) :
    truffle_is_executable v = false ∧ mainRun r = Except.ok 13 := by
  have hv' : truffle_is_executable v = false := by
    cases v <;> simp_all [ForeignValue.isCallable, truffle_is_executable,
      truffle_probe, CapabilityProbe.has]
  exact ⟨hv', by simp [mainRun, truffle_import, h, hv']⟩

/-- Witness for C2 at a concrete registry binding "foreign" to a
non-callable primitive. -/
theorem c2_witness :
    truffle_is_executable (ForeignValue.primitive (Prim.num 7)) = false ∧
    mainRun [("foreign", ForeignValue.primitive (Prim.num 7))] = Except.ok 13 :=
  c2_nonexecutable_branch_returns_13
    [("foreign", ForeignValue.primitive (Prim.num 7))]
    (ForeignValue.primitive (Prim.num 7)) (by decide) (by decide)

/-- Claim C3: the executability probe is total — for every foreign value
and capability it returns some boolean (it is a plain function into Bool,
so it cannot fail or throw), and an unrecognized or inapplicable
capability returns false rather than failing. -/
theorem c3_probe_total_inapplicable_false
    (v : ForeignValue) (c : Capability) :
    (∃ b : Bool, truffle_probe v c = b) ∧
    (capApplicable v c = false → truffle_probe v c = false) := by
  refine ⟨⟨truffle_probe v c, rfl⟩, ?_⟩
  cases v <;> cases c <;>
    simp_all [capApplicable, truffle_probe, CapabilityProbe.has]

/-- Witness for C3: the Executable capability is inapplicable to the Null
variant and the probe answers false there. -/
theorem c3_witness :
    truffle_probe ForeignValue.null Capability.executable = false :=
  (c3_probe_total_inapplicable_false ForeignValue.null Capability.executable).2
    (by decide)

/-- Claim C4: for every name with no registration in the symbol registry,
importing that name fails with NameNotFound and produces no foreign value
handle. -/
theorem c4_unregistered_import_fails
    (r : SymbolRegistry) (n : String) (h : r.registered n = false) :
    truffle_import r n = Except.error BridgeError.nameNotFound ∧
    ∀ v : ForeignValue, truffle_import r n ≠ Except.ok v := by
  have hres : r.resolve n = none := by
    simpa [SymbolRegistry.registered, Option.isSome_iff_exists] using h
  refine ⟨by simp [truffle_import, hres], ?_⟩
  intro v hv
  simp [truffle_import, hres] at hv

/-- Witness for C4 on the empty registry and the name "missing". -/
theorem c4_witness :
    truffle_import [] "missing" = Except.error BridgeError.nameNotFound ∧
    ∀ v : ForeignValue, truffle_import [] "missing" ≠ Except.ok v :=
  c4_unregistered_import_fails [] "missing" (by decide)

/-- Claim C5: for every registered name, the handle import returns probes
true for Executable if and only if the bound foreign value is the callable
(Executable) variant — no false positives and no false negatives. -/
theorem c5_probe_exact_iff_callable
    (r : SymbolRegistry) (n : String) (v : ForeignValue)
    (h : truffle_import r n = Except.ok v) :
    (truffle_probe v Capability.executable = true ↔
      ∃ ref ar : Nat, v = ForeignValue.executable ref ar) := by
  cases v <;>
    simp [truffle_probe, CapabilityProbe.has]

/-- Witness for C5: both directions at concrete registered bindings — a
callable probes true and a pointer probes false. -/
theorem c5_witness :
    (truffle_probe (ForeignValue.executable 3 1) Capability.executable = true ↔
      ∃ ref ar : Nat, ForeignValue.executable 3 1 = ForeignValue.executable ref ar) ∧
    (truffle_probe (ForeignValue.pointer 5) Capability.executable = true ↔
      ∃ ref ar : Nat, ForeignValue.pointer 5 = ForeignValue.executable ref ar) :=
  ⟨c5_probe_exact_iff_callable [("f", ForeignValue.executable 3 1)] "f"
      (ForeignValue.executable 3 1) rfl,
   c5_probe_exact_iff_callable [("g", ForeignValue.pointer 5)] "g"
      (ForeignValue.pointer 5) rfl⟩

/-- Claim C6: the bridge cannot produce a handle from a failed import —
every handle import yields was genuinely resolved in the registry — and
when import of "foreign" fails, main's run propagates the failure without
the probe ever receiving a handle, so no invalid-handle state is
reachable. -/
theorem c6_no_invalid_handle (r : SymbolRegistry) :
    (∀ (n : String) (v : ForeignValue),
        truffle_import r n = Except.ok v → r.resolve n = some v) ∧
    (r.resolve "foreign" = none →
        mainRun r = Except.error BridgeError.nameNotFound) := by
  constructor
  · intro n v h
    unfold truffle_import at h
    cases hres : r.resolve n with
    | none => simp [hres] at h
    | some w =>
        simp [hres] at h
        subst h
        rfl
  · intro h
    simp [mainRun, truffle_import, h]

/-- Witness for C6 on the empty registry: import "foreign" resolves no
handle and mainRun surfaces NameNotFound. -/
theorem c6_witness :
    mainRun [] = Except.error BridgeError.nameNotFound :=
  (c6_no_invalid_handle []).2 rfl

/-- Claim C7: probing never triggers foreign execution — any number of
probe calls emits an empty foreign-side event trace, identical to a run
that never calls probe, and main's run (which never invokes) emits no
foreign event at all, on either branch. -/
theorem c7_probe_no_foreign_effect
    (ps : List (ForeignValue × Capability)) (r : SymbolRegistry) :
    probesTrace ps = [] ∧ (mainRunT r).2 = [] := by
  constructor
  · induction ps with
    | nil => rfl
    | cons p rest ih => simp [probesTrace, truffle_probeT]
  · unfold mainRunT
    cases truffle_import r "foreign" with
    | error e => rfl
    | ok obj =>
        simp only [truffle_probeT]
        split <;> rfl

/-- Claim C8: probe is idempotent — two successive probe calls on the same
handle with the same capability, threaded through the foreign-side trace,
return the same boolean both times, and each equals the pure probe of the
value's variant (the answer is a function of the variant, not of
history). -/
theorem c8_probe_idempotent (v : ForeignValue) (c : Capability) :
    (probeTwice v c).1 = (probeTwice v c).2.1 ∧
    (probeTwice v c).2.1 = truffle_probe v c := by
  exact ⟨rfl, rfl⟩

/-- Claim C9: for every environment — every opaque handle truffle_import
returns and every boolean truffle_is_executable answers — main terminates
with exit code exactly 42 or exactly 13, calls truffle_import exactly once
(on "foreign"), truffle_is_executable exactly once, and never invokes the
foreign value. -/
theorem c9_main_shape {α : Type} (imp : String → α) (isExec : α → Bool) :
    ((mainC imp isExec).1 = 42 ∨ (mainC imp isExec).1 = 13) ∧
    (mainC imp isExec).2.count (CallEvent.importCall "foreign") = 1 ∧
    (mainC imp isExec).2.count CallEvent.isExecutableCall = 1 ∧
    (mainC imp isExec).2.count CallEvent.invokeCall = 0 := by
  unfold mainC
  cases h : isExec (imp "foreign") <;> simp [h]

/-- Claim C10: main's exit code is determined solely by the boolean
truffle_is_executable returns — any two runs, even over different opaque
handle types, in which the probe answers the same boolean for the imported
handle produce the same exit code: 42 when the boolean is true and 13 when
it is false, independently of the handle value. -/
theorem c10_exit_code_noninterference {α β : Type}
    (imp1 : String → α) (exec1 : α → Bool)
    (imp2 : String → β) (exec2 : β → Bool)
    (h : exec1 (imp1 "foreign") = exec2 (imp2 "foreign")) :
    (mainC imp1 exec1).1 = (mainC imp2 exec2).1 ∧
    (exec1 (imp1 "foreign") = true → (mainC imp1 exec1).1 = 42) ∧
    (exec1 (imp1 "foreign") = false → (mainC imp1 exec1).1 = 13) := by
  unfold mainC
  cases h1 : exec1 (imp1 "foreign") <;> rw [h1] at h <;> simp [h1, ← h]

/-- Witness for C10: two concrete runs over distinct handle types whose
probes agree produce the same exit code, 42. -/
theorem c10_witness :
    (mainC (fun _ => ()) (fun _ => true)).1 =
      (mainC (fun _ => (0 : Nat)) (fun _ => true)).1 ∧
    ((fun (_ : Unit) => true) ((fun _ => ()) "foreign") = true →
      (mainC (fun _ => ()) (fun _ => true)).1 = 42) ∧
    ((fun (_ : Unit) => true) ((fun _ => ()) "foreign") = false →
      (mainC (fun _ => ()) (fun _ => true)).1 = 13) :=
  c10_exit_code_noninterference (fun _ => ()) (fun _ => true)
    (fun _ => (0 : Nat)) (fun _ => true) rfl
